import Mathlib

/-!
# Verification of the `sanctuary-signer` library

Shallow embedding of `src/client/sanctuary-signer/src/lib.rs` (the
SANCTUARY quantum-resistant wallet) and proofs of the specification
claims about it.

Modelling conventions:
* Rust byte slices / `Vec<u8>` are `List Nat`, each element intended
  `< 256` (the code never produces anything larger).
* Rust `String` is a UTF-8 byte buffer; `str::as_bytes` exposes that
  buffer unchanged, so the `to` / `data` strings of a transaction are
  modelled directly by their UTF-8 byte lists.
* `u128` / `u64` values are `Nat` with explicit `< 2^128` / `< 2^64`
  bounds where they matter.
* The CRYSTALS-Dilithium primitive (`pqcrypto_dilithium::dilithium2`)
  is an external crate, declared an opaque collaborator by the spec;
  it is modelled as an abstract record of operations (`Dilithium2`),
  and the library's functions are parametrised by it.
-/

namespace Sanctuary

/-- Source constant `pub const DILITHIUM2_SIG_SIZE: usize = 2420`. -/
def DILITHIUM2_SIG_SIZE : Nat := 2420

/-- Source constant `pub const DILITHIUM2_PK_SIZE: usize = 1312`. -/
def DILITHIUM2_PK_SIZE : Nat := 1312

/-- Source constant `pub const DILITHIUM2_SK_SIZE: usize = 2560`. -/
def DILITHIUM2_SK_SIZE : Nat := 2560

/-- Source enum `pub enum SanctuaryError`, all five variants. -/
inductive SanctuaryError where
  | invalidPublicKeySize
  | invalidSecretKeySize
  | invalidSignatureSize
  | signatureVerificationFailed
  | keyDeserializationFailed
deriving DecidableEq, Repr

/-- Source struct `pub struct SanctuaryWallet { pk: Vec<u8>, sk: Vec<u8> }`. -/
structure SanctuaryWallet where
  pk : List Nat
  sk : List Nat
deriving DecidableEq, Repr

/-- Modelled from the spec: the opaque post-quantum signature primitive
(`keypair` / `detached_sign` / `verify_detached_signature` and the
byte-conversion functions of `pqcrypto_dilithium::dilithium2`), which the
spec declares out of scope ("treated as an opaque cryptographic
primitive").  `PK`, `SK`, `Sig` are its structured key/signature types;
`from_bytes` parsers are fallible, `as_bytes` serialisers total, and
`verify_detached_signature`'s `Result<(), _>` is modelled as `Bool`
(`Ok(()) ↦ true`). -/
structure Dilithium2 (PK SK Sig : Type) where
  pkFromBytes : List Nat → Option PK
  skFromBytes : List Nat → Option SK
  sigFromBytes : List Nat → Option Sig
  sigToBytes : Sig → List Nat
  detachedSign : List Nat → SK → Sig
  verifyDetached : Sig → List Nat → PK → Bool

variable {PK SK Sig : Type}

/-- Source method `SanctuaryWallet::public_key`: `&self.pk`, the stored bytes unchanged. -/
def SanctuaryWallet.public_key (w : SanctuaryWallet) : List Nat :=
  w.pk

/-- External function `hex::encode` (`hex` crate): lowercase hex, two nibbles per
byte, no prefix; modelled as the nibble-value sequence of the bytes. -/
def hexNibbles (bytes : List Nat) : List Nat :=
  bytes.foldr (fun b acc => b / 16 :: b % 16 :: acc) []

/-- Source method `SanctuaryWallet::public_key_hex`: `hex::encode(&self.pk)`. -/
def SanctuaryWallet.public_key_hex (w : SanctuaryWallet) : List Nat :=
  hexNibbles w.pk

/-- Rust `slice::chunks(32)` as used in the source's `self.pk.chunks(32)`: splits a
byte list into consecutive chunks of 32, the last one possibly shorter;
the empty list yields no chunks. -/
def chunks32 : List Nat → List (List Nat)
  | [] => []
  | b :: l => (b :: l).take 32 :: chunks32 ((b :: l).drop 32)
termination_by l => l.length
decreasing_by
  simp only [List.length_drop, List.length_cons]
  omega

/-- The inner loop of `public_key_hash` for one enumerated chunk
`(i, chunk)`: `for (j, &byte) in chunk.iter().enumerate { if j < 32 {
hash[j] ^= byte.wrapping_add(i as u8) } }`.  The `hash` buffer has
length 32 and every chunk length ≤ 32, so the `j < 32` guard is the
condition that both lists still have a `j`-th element; the recursion
walks the two lists in lockstep. -/
def xorChunk (i : Nat) : List Nat → List Nat → List Nat
  | hash, [] => hash
  | [], _ => []
  | h :: hash, b :: chunk => (h ^^^ ((b + i % 256) % 256)) :: xorChunk i hash chunk

/-- Source method `SanctuaryWallet::public_key_hash`: XOR-fold of the stored public-key
bytes in 32-byte chunks into a 32-byte buffer initialised to zero;
chunk `i`'s byte `j` enters position `j` after `wrapping_add(i as u8)`. -/
def SanctuaryWallet.public_key_hash (w : SanctuaryWallet) : List Nat :=
  ((chunks32 w.pk).enum).foldl (fun hash ic => xorChunk ic.1 hash ic.2)
    (List.replicate 32 0)

/-- Source method `SanctuaryWallet::sign_transaction`: re-parse the stored secret-key
bytes (`SecretKey::from_bytes(&self.sk)`), mapping a parse failure to
`KeyDeserializationFailed`; then `detached_sign(message, &sk)` and
return the signature bytes. -/
def sign_transaction (P : Dilithium2 PK SK Sig) (w : SanctuaryWallet)
    (message : List Nat) : Except SanctuaryError (List Nat) :=
  match P.skFromBytes w.sk with
  | none => .error .keyDeserializationFailed
  | some sk => .ok (P.sigToBytes (P.detachedSign message sk))

/-- Source method `SanctuaryWallet::verify_transaction`: size checks first (public key
1312, signature 2420), then parse both (`KeyDeserializationFailed` on
either failure), then `verify_detached_signature`, whose `Ok(())`/`Err`
becomes `Ok(true)`/`Ok(false)`. -/
def verify_transaction (P : Dilithium2 PK SK Sig) (pk_bytes message
    signature_bytes : List Nat) : Except SanctuaryError Bool :=
  if pk_bytes.length ≠ DILITHIUM2_PK_SIZE then
    .error .invalidPublicKeySize
  else if signature_bytes.length ≠ DILITHIUM2_SIG_SIZE then
    .error .invalidSignatureSize
  else
    match P.pkFromBytes pk_bytes with
    | none => .error .keyDeserializationFailed
    | some pk =>
      match P.sigFromBytes signature_bytes with
      | none => .error .keyDeserializationFailed
      | some sig => .ok (P.verifyDetached sig message pk)

/-- Fixed-width big-endian byte encoding, the semantics of Rust's
`u128::to_be_bytes` (`w = 16`) and `u64::to_be_bytes` (`w = 8`):
the first byte is the most significant, byte `k` of width `w` is
`n / 256^(w-1-k) % 256`. -/
def toBeBytes : Nat → Nat → List Nat
  | 0, _ => []
  | w + 1, n => n / 256 ^ w % 256 :: toBeBytes w n

/-- Source struct `pub struct SanctuaryTransaction`: `to` and `data` are hex-encoded
strings, modelled by their UTF-8 byte lists; `value : u128`,
`nonce : u64` as bounded `Nat`. -/
structure SanctuaryTransaction where
  «to» : List Nat
  value : Nat
  data : List Nat
  nonce : Nat
deriving DecidableEq, Repr

/-- Source method `SanctuaryTransaction::encode`: a fresh `Vec`, then four
`extend_from_slice` pushes in source order — `to.as_bytes()`,
`value.to_be_bytes()`, `data.as_bytes()`, `nonce.to_be_bytes()`. -/
def SanctuaryTransaction.encode (tx : SanctuaryTransaction) : List Nat :=
  let encoded : List Nat := []
  let encoded := encoded ++ tx.to
  let encoded := encoded ++ toBeBytes 16 tx.value
  let encoded := encoded ++ tx.data
  let encoded := encoded ++ toBeBytes 8 tx.nonce
  encoded

/-- Spec-side wire format (§4.3/§6 of the spec, stated in its words):
`to_bytes || value_be16 || data_bytes || nonce_be8`, raw string bytes,
fixed-width big-endian integers, no delimiters. -/
def encodeSpec (tx : SanctuaryTransaction) : List Nat :=
  tx.to ++ toBeBytes 16 tx.value ++ tx.data ++ toBeBytes 8 tx.nonce

/-- Big-endian decoding, to certify `toBeBytes` really is the big-endian
encoding: fold most-significant-first. -/
def fromBeBytes (l : List Nat) : Nat :=
  l.foldl (fun acc b => acc * 256 + b) 0

/-- Spec-side description (claim C7, spec §9 "XOR-fold of 32-byte
chunks") of byte `j` of the placeholder digest: the XOR, over the
enumerated chunks `(i, chunk)` of the public key whose length exceeds
`j`, of `(chunk[j] + i % 256) % 256`. -/
def hashByte (pk : List Nat) (j : Nat) : Nat :=
  (((chunks32 pk).enum).filter (fun ic => j < ic.2.length)).foldl
    (fun acc ic => acc ^^^ ((ic.2.getD j 0 + ic.1 % 256) % 256)) 0

/-- Concrete instantiation of the opaque primitive, used only to witness
the parametric theorems at a concrete input: parsing accepts exactly the
protocol sizes, signatures serialise to 2420 zero bytes, verification
always succeeds. -/
def trivialPrimitive : Dilithium2 Unit Unit Unit where
  pkFromBytes := fun l => if l.length = DILITHIUM2_PK_SIZE then some () else none
  skFromBytes := fun l => if l.length = DILITHIUM2_SK_SIZE then some () else none
  sigFromBytes := fun l => if l.length = DILITHIUM2_SIG_SIZE then some () else none
  sigToBytes := fun _ => List.replicate DILITHIUM2_SIG_SIZE 0
  detachedSign := fun _ _ => ()
  verifyDetached := fun _ _ _ => true

/-- Modelled from the spec: what §3 and §4.1 guarantee about a wallet
built by `SanctuaryWallet::new` from `keypair()` (out-of-scope external
primitive) — the stored halves have the fixed sizes 1312/2560, both
parse back into structured keys, and a detached signature by the stored
secret key verifies under the stored public key (§8: `verify(sign(m, sk),
m, pk) == true`). -/
structure IsFreshKeypairWallet (P : Dilithium2 PK SK Sig) (w : SanctuaryWallet) : Prop where
  pk_size : w.pk.length = DILITHIUM2_PK_SIZE
  sk_size : w.sk.length = DILITHIUM2_SK_SIZE
  matched : ∃ pkS skS, P.pkFromBytes w.pk = some pkS ∧ P.skFromBytes w.sk = some skS
      ∧ ∀ m, P.verifyDetached (P.detachedSign m skS) m pkS = true

/-- Modelled from the spec: §3 "Signature: bytes[2420] ... Stateless
value type — no identity beyond its bytes" — a produced signature
serialises to exactly 2420 bytes and parses back to itself. -/
structure SigSerialization (P : Dilithium2 PK SK Sig) : Prop where
  sig_size : ∀ (m : List Nat) (sk : SK),
      (P.sigToBytes (P.detachedSign m sk)).length = DILITHIUM2_SIG_SIZE
  sig_roundtrip : ∀ (m : List Nat) (sk : SK),
      P.sigFromBytes (P.sigToBytes (P.detachedSign m sk)) = some (P.detachedSign m sk)

/-- Enumeration of the wallet's public interface after construction, as
found in the source: `public_key`, `public_key_hex`, `public_key_hash`,
`sign_transaction`.  No other method of `SanctuaryWallet` reads or
writes the fields, and none takes `&mut self`. -/
inductive WalletOp where
  | publicKey
  | publicKeyHex
  | publicKeyHash
  | signTransaction (message : List Nat)

/-- Observable output of one public wallet call. -/
inductive WalletOutput where
  | bytes (b : List Nat)
  | hexOut (b : List Nat)
  | digest (b : List Nat)
  | signed (r : Except SanctuaryError (List Nat))

/-- State-passing semantics of one public wallet call: the call's output
together with the wallet state after the call.  Every source method
takes `&self` — a shared borrow of a struct with no interior
mutability — so the state after each call is the receiver unchanged. -/
def runOp (P : Dilithium2 PK SK Sig) (w : SanctuaryWallet) :
    WalletOp → WalletOutput × SanctuaryWallet
  | .publicKey => (.bytes w.public_key, w)
  | .publicKeyHex => (.hexOut w.public_key_hex, w)
  | .publicKeyHash => (.digest w.public_key_hash, w)
  | .signTransaction m => (.signed (sign_transaction P w m), w)

/-- Sequential execution of public wallet calls, threading the state. -/
def runOps (P : Dilithium2 PK SK Sig) (w : SanctuaryWallet) :
    List WalletOp → SanctuaryWallet
  | [] => w
  | op :: ops => runOps P (runOp P w op).2 ops

theorem toBeBytes_length (w n : Nat) : (toBeBytes w n).length = w := by
  induction w generalizing n with
  | zero => rfl
  | succ w ih => simp [toBeBytes, ih]

theorem foldl_toBeBytes (w n acc : Nat) :
    (toBeBytes w n).foldl (fun acc b => acc * 256 + b) acc
      = acc * 256 ^ w + n % 256 ^ w := by
  induction w generalizing acc with
  | zero => simp [toBeBytes, Nat.mod_one]
  | succ w ih =>
    simp only [toBeBytes, List.foldl_cons, ih]
    have h256 : (256 : Nat) ^ (w + 1) = 256 ^ w * 256 := by ring
    have hmod : n % 256 ^ (w + 1) = n % 256 ^ w + 256 ^ w * (n / 256 ^ w % 256) := by
      rw [h256, Nat.mod_mul]
    rw [hmod]
    ring

theorem fromBeBytes_toBeBytes (w n : Nat) (h : n < 256 ^ w) :
    fromBeBytes (toBeBytes w n) = n := by
  unfold fromBeBytes
  rw [foldl_toBeBytes]
  simp [Nat.mod_eq_of_lt h]

theorem toBeBytes_injOn (w m n : Nat) (hm : m < 256 ^ w) (hn : n < 256 ^ w)
    (h : toBeBytes w m = toBeBytes w n) : m = n := by
  have := congrArg fromBeBytes h
  rwa [fromBeBytes_toBeBytes w m hm, fromBeBytes_toBeBytes w n hn] at this

theorem encode_eq_concat (tx : SanctuaryTransaction) :
    tx.encode = tx.to ++ toBeBytes 16 tx.value ++ tx.data ++ toBeBytes 8 tx.nonce := by
  simp [SanctuaryTransaction.encode, List.append_assoc]

/-- C1: for every transaction, `encode` returns exactly
`to_bytes || value_be16 || data_bytes || nonce_be8` — the raw bytes of
`to`, the 16-byte big-endian `value`, the raw bytes of `data`, the
8-byte big-endian `nonce`, with no delimiters; the integer fields have
the stated fixed widths and decode back big-endian-wise to the values. -/
theorem encode_wire_format (tx : SanctuaryTransaction) :
    tx.encode = tx.to ++ toBeBytes 16 tx.value ++ tx.data ++ toBeBytes 8 tx.nonce
    ∧ tx.encode = encodeSpec tx
    ∧ (toBeBytes 16 tx.value).length = 16
    ∧ (toBeBytes 8 tx.nonce).length = 8
    ∧ (tx.value < 256 ^ 16 → fromBeBytes (toBeBytes 16 tx.value) = tx.value)
    ∧ (tx.nonce < 256 ^ 8 → fromBeBytes (toBeBytes 8 tx.nonce) = tx.nonce) :=
  ⟨encode_eq_concat tx, (encode_eq_concat tx).trans rfl,
   toBeBytes_length 16 tx.value, toBeBytes_length 8 tx.nonce,
   fromBeBytes_toBeBytes 16 tx.value, fromBeBytes_toBeBytes 8 tx.nonce⟩

/-- Witness for C1 at a concrete transaction. -/
theorem encode_wire_format_witness :
    (SanctuaryTransaction.mk [48, 120, 97, 98] 1000000 [48, 120] 7).encode
      = [48, 120, 97, 98] ++ toBeBytes 16 1000000 ++ [48, 120] ++ toBeBytes 8 7
    ∧ fromBeBytes (toBeBytes 16 1000000) = 1000000
    ∧ fromBeBytes (toBeBytes 8 7) = 7 := by
  have h := encode_wire_format (SanctuaryTransaction.mk [48, 120, 97, 98] 1000000 [48, 120] 7)
  exact ⟨h.1, h.2.2.2.2.1 (by norm_num), h.2.2.2.2.2 (by norm_num)⟩

/-- C2: a public key whose length is not 1312 yields
`InvalidPublicKeySize` for every primitive, message and signature (so
before and independent of any parse attempt); with a 1312-byte key a
signature whose length is not 2420 yields `InvalidSignatureSize`. -/
theorem verify_size_checks (P : Dilithium2 PK SK Sig) (pk m s : List Nat) :
    (pk.length ≠ 1312 → verify_transaction P pk m s = .error .invalidPublicKeySize)
    ∧ (pk.length = 1312 → s.length ≠ 2420 →
        verify_transaction P pk m s = .error .invalidSignatureSize) := by
  constructor
  · intro h
    simp [verify_transaction, DILITHIUM2_PK_SIZE, h]
  · intro h1 h2
    simp [verify_transaction, DILITHIUM2_PK_SIZE, DILITHIUM2_SIG_SIZE, h1, h2]

/-- Witness for C2: a 100-byte key is rejected as `InvalidPublicKeySize`,
a 1312-byte key with an empty signature as `InvalidSignatureSize`. -/
theorem verify_size_checks_witness :
    verify_transaction trivialPrimitive (List.replicate 100 0) [] []
      = .error .invalidPublicKeySize
    ∧ verify_transaction trivialPrimitive (List.replicate 1312 0) [] []
      = .error .invalidSignatureSize := by
  have h1 := verify_size_checks trivialPrimitive (List.replicate 100 0) [] []
  have h2 := verify_size_checks trivialPrimitive (List.replicate 1312 0) [] []
  exact ⟨h1.1 (by rw [List.length_replicate]; decide),
    h2.2 (List.length_replicate 1312 0) (by decide)⟩

/-- C5: `encode` is a pure, deterministic function of the four fields:
transactions with equal `to`, `value`, `data`, `nonce` encode to
byte-identical lists. -/
theorem encode_deterministic (t1 t2 : SanctuaryTransaction)
    (hto : t1.to = t2.to) (hv : t1.value = t2.value)
    (hd : t1.data = t2.data) (hn : t1.nonce = t2.nonce) :
    t1.encode = t2.encode := by
  cases t1
  cases t2
  cases hto
  cases hv
  cases hd
  cases hn
  rfl

/-- Witness for C5 at two concrete, field-equal transactions. -/
theorem encode_deterministic_witness :
    (SanctuaryTransaction.mk [48] 5 [49] 2).encode
      = (SanctuaryTransaction.mk [48] 5 [49] 2).encode :=
  encode_deterministic _ _ rfl rfl rfl rfl

theorem trivialPrimitive_pk_of_len (l : List Nat) (h : l.length = DILITHIUM2_PK_SIZE) :
    trivialPrimitive.pkFromBytes l = some () := by
  simp [trivialPrimitive, h]

theorem trivialPrimitive_sk_of_len (l : List Nat) (h : l.length = DILITHIUM2_SK_SIZE) :
    trivialPrimitive.skFromBytes l = some () := by
  simp [trivialPrimitive, h]

theorem trivialPrimitive_sig_of_len (l : List Nat) (h : l.length = DILITHIUM2_SIG_SIZE) :
    trivialPrimitive.sigFromBytes l = some () := by
  simp [trivialPrimitive, h]

theorem trivialPrimitive_pk :
    trivialPrimitive.pkFromBytes (List.replicate 1312 0) = some () :=
  trivialPrimitive_pk_of_len _ (List.length_replicate 1312 0)

theorem trivialPrimitive_sk :
    trivialPrimitive.skFromBytes (List.replicate 2560 0) = some () :=
  trivialPrimitive_sk_of_len _ (List.length_replicate 2560 0)

theorem trivialPrimitive_sig :
    trivialPrimitive.sigFromBytes (List.replicate 2420 0) = some () :=
  trivialPrimitive_sig_of_len _ (List.length_replicate 2420 0)

/-- C3: with correctly sized inputs, a successful parse of both the key
and the signature always yields `Ok` of the primitive's boolean verdict
(so a well-formed but cryptographically invalid signature is `Ok false`,
never an error), while a parse failure of either input yields
`KeyDeserializationFailed`. -/
theorem verify_parse_tier (P : Dilithium2 PK SK Sig) (pk m s : List Nat)
    (hpk : pk.length = 1312) (hs : s.length = 2420) :
    (∀ k g, P.pkFromBytes pk = some k → P.sigFromBytes s = some g →
        verify_transaction P pk m s = .ok (P.verifyDetached g m k))
    ∧ (P.pkFromBytes pk = none →
        verify_transaction P pk m s = .error .keyDeserializationFailed)
    ∧ (∀ k, P.pkFromBytes pk = some k → P.sigFromBytes s = none →
        verify_transaction P pk m s = .error .keyDeserializationFailed) := by
  refine ⟨fun k g hk hg => ?_, fun hk => ?_, fun k hk hg => ?_⟩
  · simp [verify_transaction, DILITHIUM2_PK_SIZE, DILITHIUM2_SIG_SIZE, hpk, hs, hk, hg]
  · simp [verify_transaction, DILITHIUM2_PK_SIZE, DILITHIUM2_SIG_SIZE, hpk, hs, hk]
  · simp [verify_transaction, DILITHIUM2_PK_SIZE, DILITHIUM2_SIG_SIZE, hpk, hs, hk, hg]

/-- Witness for C3: correctly sized, parseable inputs give `Ok` of the
primitive's verdict. -/
theorem verify_parse_tier_witness :
    verify_transaction trivialPrimitive (List.replicate 1312 0) []
      (List.replicate 2420 0) = .ok true := by
  have h := verify_parse_tier trivialPrimitive (List.replicate 1312 0) []
    (List.replicate 2420 0) (List.length_replicate 1312 0) (List.length_replicate 2420 0)
  exact h.1 () () trivialPrimitive_pk trivialPrimitive_sig

/-- C8: `sign_transaction` re-parses the stored secret-key bytes on each
call, fails with `KeyDeserializationFailed` exactly when that parse
fails, and otherwise returns the detached signature of the message under
the parsed key. -/
theorem sign_reparse (P : Dilithium2 PK SK Sig) (w : SanctuaryWallet) (m : List Nat) :
    (sign_transaction P w m = .error .keyDeserializationFailed
      ↔ P.skFromBytes w.sk = none)
    ∧ (∀ e, sign_transaction P w m = .error e → e = .keyDeserializationFailed)
    ∧ (∀ sk, P.skFromBytes w.sk = some sk →
        sign_transaction P w m = .ok (P.sigToBytes (P.detachedSign m sk))) := by
  cases hsk : P.skFromBytes w.sk <;>
    simp [sign_transaction, hsk]

/-- Witness for C8: a wallet whose stored secret-key bytes parse signs
successfully with the primitive's detached signature. -/
theorem sign_reparse_witness :
    sign_transaction trivialPrimitive
      (SanctuaryWallet.mk [] (List.replicate 2560 0)) [] = .ok (List.replicate 2420 0) := by
  have h := sign_reparse trivialPrimitive (SanctuaryWallet.mk [] (List.replicate 2560 0)) []
  exact h.2.2 () trivialPrimitive_sk

/-- C10: through the public interface, `sign_transaction` only ever
returns `Ok` or `KeyDeserializationFailed`, and `verify_transaction`
only ever returns `Ok`, `InvalidPublicKeySize`, `InvalidSignatureSize`
or `KeyDeserializationFailed`: the variants `InvalidSecretKeySize` and
`SignatureVerificationFailed` are unreachable. -/
theorem error_variants_unreachable (P : Dilithium2 PK SK Sig)
    (w : SanctuaryWallet) (m pk s : List Nat) :
    ((∃ bytes, sign_transaction P w m = .ok bytes)
      ∨ sign_transaction P w m = .error .keyDeserializationFailed)
    ∧ ((∃ b, verify_transaction P pk m s = .ok b)
      ∨ verify_transaction P pk m s = .error .invalidPublicKeySize
      ∨ verify_transaction P pk m s = .error .invalidSignatureSize
      ∨ verify_transaction P pk m s = .error .keyDeserializationFailed) := by
  constructor
  · cases hsk : P.skFromBytes w.sk with
    | none => exact Or.inr (by simp [sign_transaction, hsk])
    | some sk =>
      exact Or.inl ⟨P.sigToBytes (P.detachedSign m sk), by simp [sign_transaction, hsk]⟩
  · by_cases h1 : pk.length ≠ DILITHIUM2_PK_SIZE
    · exact Or.inr (Or.inl (by simp [verify_transaction, h1]))
    · by_cases h2 : s.length ≠ DILITHIUM2_SIG_SIZE
      · exact Or.inr (Or.inr (Or.inl (by simp [verify_transaction, h1, h2])))
      · cases hk : P.pkFromBytes pk with
        | none =>
          exact Or.inr (Or.inr (Or.inr (by simp [verify_transaction, h1, h2, hk])))
        | some k => ?_
        cases hg : P.sigFromBytes s with
        | none =>
          exact Or.inr (Or.inr (Or.inr (by simp [verify_transaction, h1, h2, hk, hg])))
        | some g =>
          exact Or.inl ⟨P.verifyDetached g m k, by simp [verify_transaction, h1, h2, hk, hg]⟩

/-- C4: the sign/verify round trip — for a wallet holding a matched,
well-serialising key pair, whenever `sign_transaction` returns a
signature, `verify_transaction` on the wallet's public key, the same
message and that signature returns `Ok true`. -/
theorem sign_verify_roundtrip (P : Dilithium2 PK SK Sig) (hP : SigSerialization P)
    (w : SanctuaryWallet) (hw : IsFreshKeypairWallet P w) (m sig : List Nat)
    (h : sign_transaction P w m = .ok sig) :
    verify_transaction P w.public_key m sig = .ok true := by
  obtain ⟨pkS, skS, hpk, hsk, hver⟩ := hw.matched
  have hsig : P.sigToBytes (P.detachedSign m skS) = sig := by
    simpa [sign_transaction, hsk] using h
  subst hsig
  simp [verify_transaction, SanctuaryWallet.public_key, hw.pk_size,
    hP.sig_size, hpk, hP.sig_roundtrip, hver, DILITHIUM2_PK_SIZE, DILITHIUM2_SIG_SIZE]

/-- Witness for C4 at the trivial primitive and a concrete wallet. -/
theorem sign_verify_roundtrip_witness :
    verify_transaction trivialPrimitive
      (SanctuaryWallet.mk (List.replicate 1312 0) (List.replicate 2560 0)).public_key
      [] (List.replicate 2420 0) = .ok true := by
  refine sign_verify_roundtrip trivialPrimitive ⟨?_, ?_⟩
    (SanctuaryWallet.mk (List.replicate 1312 0) (List.replicate 2560 0))
    ⟨List.length_replicate 1312 0, List.length_replicate 2560 0,
      (), (), trivialPrimitive_pk, trivialPrimitive_sk, fun _ => rfl⟩ [] _ ?_
  · intro m sk
    exact List.length_replicate 2420 0
  · intro m sk
    exact trivialPrimitive_sig
  · show sign_transaction trivialPrimitive
      (SanctuaryWallet.mk (List.replicate 1312 0) (List.replicate 2560 0)) []
        = .ok (List.replicate 2420 0)
    unfold sign_transaction
    rw [show trivialPrimitive.skFromBytes
      (SanctuaryWallet.mk (List.replicate 1312 0) (List.replicate 2560 0)).sk
        = some () from trivialPrimitive_sk]
    rfl

/-- C6: `encode` is injective once the variable-width fields are pinned
to equal lengths — two transactions with equally long `to` fields and
equally long `data` fields that differ anywhere have different
encodings. -/
theorem encode_injective_fixed_lengths (t1 t2 : SanctuaryTransaction)
    (hto : t1.to.length = t2.to.length)
    (hdata : t1.data.length = t2.data.length)
    (hv1 : t1.value < 256 ^ 16) (hv2 : t2.value < 256 ^ 16)
    (hn1 : t1.nonce < 256 ^ 8) (hn2 : t2.nonce < 256 ^ 8)
    (hne : t1 ≠ t2) : t1.encode ≠ t2.encode := by
  intro h
  apply hne
  rw [encode_eq_concat, encode_eq_concat] at h
  obtain ⟨h', h4⟩ := List.append_inj' h
    (by rw [toBeBytes_length, toBeBytes_length])
  obtain ⟨h'', h3⟩ := List.append_inj' h' hdata
  obtain ⟨h1, h2⟩ := List.append_inj h'' hto
  have hv : t1.value = t2.value := toBeBytes_injOn 16 _ _ hv1 hv2 h2
  have hn : t1.nonce = t2.nonce := toBeBytes_injOn 8 _ _ hn1 hn2 h4
  cases t1
  cases t2
  simp_all

/-- Witness for C6: equal-length fields, nonces 1 vs 2, distinct
encodings. -/
theorem encode_injective_fixed_lengths_witness :
    (SanctuaryTransaction.mk [48] 5 [49] 1).encode
      ≠ (SanctuaryTransaction.mk [48] 5 [49] 2).encode :=
  encode_injective_fixed_lengths _ _ rfl rfl (by norm_num) (by norm_num)
    (by norm_num) (by norm_num) (by decide)

theorem xorChunk_length (i : Nat) (hash c : List Nat) :
    (xorChunk i hash c).length = hash.length := by
  induction hash generalizing c with
  | nil => cases c <;> rfl
  | cons h hs ih =>
    cases c with
    | nil => rfl
    | cons b cs => simp [xorChunk, ih]

theorem xorChunk_getD (i : Nat) (hash c : List Nat) (j : Nat) (hj : j < hash.length) :
    (xorChunk i hash c).getD j 0 =
      if j < c.length then (hash.getD j 0) ^^^ ((c.getD j 0 + i % 256) % 256)
      else hash.getD j 0 := by
  induction hash generalizing c j with
  | nil => simp at hj
  | cons h hs ih =>
    cases c with
    | nil => simp [xorChunk]
    | cons b cs =>
      cases j with
      | zero => simp [xorChunk]
      | succ j =>
        have hj' : j < hs.length := by simpa using hj
        simp only [xorChunk, List.getD_cons_succ, List.length_cons,
          Nat.succ_lt_succ_iff]
        exact ih cs j hj'

theorem foldl_xorChunk_length (L : List (Nat × List Nat)) (hash : List Nat) :
    (L.foldl (fun h ic => xorChunk ic.1 h ic.2) hash).length = hash.length := by
  induction L generalizing hash with
  | nil => rfl
  | cons ic L ih => rw [List.foldl_cons, ih, xorChunk_length]

theorem foldl_xor_shift (j : Nat) (L : List (Nat × List Nat)) (a : Nat) :
    L.foldl (fun acc ic => acc ^^^ ((ic.2.getD j 0 + ic.1 % 256) % 256)) a
      = a ^^^ L.foldl (fun acc ic => acc ^^^ ((ic.2.getD j 0 + ic.1 % 256) % 256)) 0 := by
  induction L generalizing a with
  | nil => simp
  | cons x L ih =>
    rw [List.foldl_cons, List.foldl_cons, ih (a ^^^ ((x.2.getD j 0 + x.1 % 256) % 256)),
      ih (0 ^^^ ((x.2.getD j 0 + x.1 % 256) % 256)), Nat.zero_xor, Nat.xor_assoc]

theorem getD_replicate_zero (n j : Nat) : (List.replicate n (0 : Nat)).getD j 0 = 0 := by
  induction n generalizing j with
  | zero => simp
  | succ n ih =>
    cases j with
    | zero => simp [List.replicate_succ]
    | succ j => simp [List.replicate_succ, ih]

theorem foldl_xorChunk_getD (L : List (Nat × List Nat)) (hash : List Nat) (j : Nat)
    (hj : j < hash.length) :
    (L.foldl (fun h ic => xorChunk ic.1 h ic.2) hash).getD j 0 =
      (hash.getD j 0) ^^^
        (L.filter (fun ic => j < ic.2.length)).foldl
          (fun acc ic => acc ^^^ ((ic.2.getD j 0 + ic.1 % 256) % 256)) 0 := by
  induction L generalizing hash with
  | nil => simp
  | cons ic L ih =>
    rw [List.foldl_cons,
      ih (xorChunk ic.1 hash ic.2) (by rw [xorChunk_length]; exact hj),
      xorChunk_getD ic.1 hash ic.2 j hj]
    by_cases hc : j < ic.2.length
    · rw [if_pos hc, List.filter_cons_of_pos (by simpa using hc),
        List.foldl_cons,
        foldl_xor_shift j _ (0 ^^^ ((ic.2.getD j 0 + ic.1 % 256) % 256)),
        Nat.zero_xor, Nat.xor_assoc]
    · rw [if_neg hc, List.filter_cons_of_neg (by simpa using hc)]

/-- C7: `public_key_hash` returns exactly 32 bytes; byte `j` is the XOR,
over the enumerated 32-byte chunks of the stored public key whose length
exceeds `j`, of chunk byte `j` wrapping-added to the chunk index mod
256; and the result depends only on the stored public-key bytes. -/
theorem public_key_hash_spec (w : SanctuaryWallet) :
    w.public_key_hash.length = 32
    ∧ (∀ j, j < 32 → w.public_key_hash.getD j 0 = hashByte w.pk j)
    ∧ (∀ w' : SanctuaryWallet, w'.pk = w.pk →
        w'.public_key_hash = w.public_key_hash) := by
  refine ⟨?_, fun j hj => ?_, fun w' h => ?_⟩
  · rw [SanctuaryWallet.public_key_hash, foldl_xorChunk_length,
      List.length_replicate]
  · rw [SanctuaryWallet.public_key_hash,
      foldl_xorChunk_getD _ _ j (by rw [List.length_replicate]; exact hj),
      getD_replicate_zero, Nat.zero_xor, hashByte]
  · rw [SanctuaryWallet.public_key_hash, SanctuaryWallet.public_key_hash, h]

/-- Witness for C7 at a concrete two-byte public key. -/
theorem public_key_hash_spec_witness :
    (SanctuaryWallet.mk [7, 9] []).public_key_hash.length = 32
    ∧ (SanctuaryWallet.mk [7, 9] []).public_key_hash.getD 0 0 = hashByte [7, 9] 0 := by
  have h := public_key_hash_spec (SanctuaryWallet.mk [7, 9] [])
  exact ⟨h.1, h.2.1 0 (by norm_num)⟩

/-- C9: a wallet is immutable after construction — any sequence of calls
to the public interface (`public_key`, `public_key_hex`,
`public_key_hash`, `sign_transaction`, the whole interface) leaves the
stored public-key and secret-key bytes exactly as constructed. -/
theorem wallet_immutable (P : Dilithium2 PK SK Sig) (w : SanctuaryWallet)
    (ops : List WalletOp) :
    runOps P w ops = w
    ∧ (runOps P w ops).pk = w.pk
    ∧ (runOps P w ops).sk = w.sk := by
  have h : runOps P w ops = w := by
    induction ops generalizing w with
    | nil => rfl
    | cons op ops ih => cases op <;> exact ih _
  exact ⟨h, by rw [h], by rw [h]⟩

end Sanctuary
